import Mathlib

/-!
Verification of the GeminiWebsocketClient
(`client/js/ws/client.js`, snapshot `client_20250406184318.js`).

We shallowly embed the client: JSON values are modelled by `JVal`
(JavaScript property access on `null` throws, on other non-objects it
yields `undefined`, modelled as `Option JVal` with `none` = undefined);
the client's mutable fields form `ClientState`; handlers and methods are
pure functions returning a new state together with the ordered list of
observable `Action`s they perform (event emissions, channel writes,
channel opens/closes, timer scheduling, promise resolution).  Code that
can raise a JavaScript `TypeError` is modelled in `Except`.
-/

namespace GWC

/-- JSON values, as produced by `blobToJSON` / `JSON.parse`. -/
inductive JVal where
  | null : JVal
  | bool : Bool → JVal
  | num : Int → JVal
  | str : String → JVal
  | arr : List JVal → JVal
  | obj : List (String × JVal) → JVal
deriving Repr

/-- Structural (also JS reference-compatible, see `otherParts` notes) equality. -/
def JVal.beq : JVal → JVal → Bool
  | .null, .null => true
  | .bool a, .bool b => a == b
  | .num a, .num b => a == b
  | .str a, .str b => a == b
  | .arr xs, .arr ys => beqArr xs ys
  | .obj xs, .obj ys => beqObj xs ys
  | _, _ => false
where
  beqArr : List JVal → List JVal → Bool
    | [], [] => true
    | x :: xs, y :: ys => JVal.beq x y && beqArr xs ys
    | _, _ => false
  beqObj : List (String × JVal) → List (String × JVal) → Bool
    | [], [] => true
    | (k, v) :: xs, (l, w) :: ys => k == l && JVal.beq v w && beqObj xs ys
    | _, _ => false

instance : BEq JVal := ⟨JVal.beq⟩

mutual

def JVal.eq_of_beq : (a b : JVal) → JVal.beq a b = true → a = b
  | .null, .null, _ => rfl
  | .bool _, .bool _, h => by
      simp only [JVal.beq, beq_iff_eq] at h; exact congrArg JVal.bool h
  | .num _, .num _, h => by
      simp only [JVal.beq, beq_iff_eq] at h; exact congrArg JVal.num h
  | .str _, .str _, h => by
      simp only [JVal.beq, beq_iff_eq] at h; exact congrArg JVal.str h
  | .arr xs, .arr ys, h => congrArg JVal.arr (JVal.eqArr_of_beq xs ys h)
  | .obj xs, .obj ys, h => congrArg JVal.obj (JVal.eqObj_of_beq xs ys h)

def JVal.eqArr_of_beq : (xs ys : List JVal) → JVal.beq.beqArr xs ys = true → xs = ys
  | [], [], _ => rfl
  | x :: xs, y :: ys, h => by
      simp only [JVal.beq.beqArr, Bool.and_eq_true] at h
      rw [JVal.eq_of_beq x y h.1, JVal.eqArr_of_beq xs ys h.2]

def JVal.eqObj_of_beq :
    (xs ys : List (String × JVal)) → JVal.beq.beqObj xs ys = true → xs = ys
  | [], [], _ => rfl
  | (k, v) :: xs, (l, w) :: ys, h => by
      simp only [JVal.beq.beqObj, Bool.and_eq_true, beq_iff_eq] at h
      rw [h.1.1, JVal.eq_of_beq v w h.1.2, JVal.eqObj_of_beq xs ys h.2]

end

mutual

def JVal.beq_refl : (a : JVal) → JVal.beq a a = true
  | .null => rfl
  | .bool b => by simp [JVal.beq]
  | .num n => by simp [JVal.beq]
  | .str s => by simp [JVal.beq]
  | .arr xs => JVal.beqArr_refl xs
  | .obj xs => JVal.beqObj_refl xs

def JVal.beqArr_refl : (xs : List JVal) → JVal.beq.beqArr xs xs = true
  | [] => rfl
  | x :: xs => by
      simp only [JVal.beq.beqArr, Bool.and_eq_true]
      exact ⟨JVal.beq_refl x, JVal.beqArr_refl xs⟩

def JVal.beqObj_refl : (xs : List (String × JVal)) → JVal.beq.beqObj xs xs = true
  | [] => rfl
  | (k, v) :: xs => by
      simp only [JVal.beq.beqObj, Bool.and_eq_true]
      exact ⟨⟨by simp, JVal.beq_refl v⟩, JVal.beqObj_refl xs⟩

end

instance : LawfulBEq JVal where
  eq_of_beq h := JVal.eq_of_beq _ _ h
  rfl := JVal.beq_refl _

instance : DecidableEq JVal := fun a b =>
  if h : JVal.beq a b = true then .isTrue (JVal.eq_of_beq a b h)
  else .isFalse (fun he => h (he ▸ JVal.beq_refl a))

/-- JavaScript truthiness of a defined value. -/
def truthyV : JVal → Bool
  | .null => false
  | .bool b => b
  | .num n => n != 0
  | .str s => s != ""
  | .arr _ => true
  | .obj _ => true

/-- JavaScript truthiness of a possibly-undefined value (`none` = undefined). -/
def truthyO : Option JVal → Bool
  | none => false
  | some v => truthyV v

/-- Runtime errors a receive/send path can raise. -/
inductive RTErr where
  | typeError : RTErr
deriving Repr, DecidableEq

/-- Total property lookup (first matching key), used on non-null receivers. -/
def jget (v : JVal) (k : String) : Option JVal :=
  match v with
  | .obj fields => fields.lookup k
  | _ => none

/-- JavaScript property access `v.k`: throws `TypeError` on `null`,
yields `undefined` on other non-object receivers. -/
def propGet (v : JVal) (k : String) : Except RTErr (Option JVal) :=
  match v with
  | .null => .error .typeError
  | v => .ok (jget v k)

/-! ## Base64 decoding (external utility) -/

/-- Index of a character in the base64 alphabet, `none` for non-alphabet
characters (padding and whitespace are skipped). -/
def b64Index (c : Char) : Option Nat :=
  if 'A' ≤ c ∧ c ≤ 'Z' then some (c.toNat - 'A'.toNat)
  else if 'a' ≤ c ∧ c ≤ 'z' then some (c.toNat - 'a'.toNat + 26)
  else if '0' ≤ c ∧ c ≤ '9' then some (c.toNat - '0'.toNat + 52)
  else if c = '+' then some 62
  else if c = '/' then some 63
  else none

/-- Regroup 6-bit base64 digits into 8-bit bytes. -/
def b64Bytes : List Nat → List Nat
  | a :: b :: c :: d :: rest =>
      (a * 4 + b / 16) :: ((b % 16) * 16 + c / 4) :: ((c % 4) * 64 + d) :: b64Bytes rest
  | [a, b, c] => [a * 4 + b / 16, (b % 16) * 16 + c / 4]
  | [a, b] => [a * 4 + b / 16]
  | _ => []

/-- Modelled from the spec: `base64ToArrayBuffer` lives in
`client/js/utils/utils.js`, which is not under `src/`; the spec states that
an audio part's base64 payload is decoded to raw bytes before the `audio`
event is published.  Non-string payloads fall outside the spec's
"base64 payload" wording and are modelled as decoding to no bytes. -/
def base64ToArrayBuffer : JVal → List Nat
  | .str s => b64Bytes (s.data.filterMap b64Index)
  | _ => []

/-! ## Events and actions -/

/-- Events published on the client's event bus. -/
inductive Event where
  | connected : Event
  | connectionError : JVal → Event
  | disconnected : (code : Nat) → (reason : String) → Event
  | toolCall : JVal → Event
  | toolCallCancellation : JVal → Event
  | interrupted : Event
  | turnComplete : Event
  | content : JVal → Event
  | audio : List Nat → Event
deriving Repr, DecidableEq

/-- Result of one `receive` call: the events emitted, in order, and whether
the frame fell through to the unmatched-message log. -/
structure ReceiveOut where
  events : List Event
  unmatched : Bool
deriving Repr, DecidableEq

/-! ## The inbound dispatcher `receive` -/

/-- JavaScript `String.prototype.startsWith`, written over the character
list so that it reduces in the kernel. -/
def jsStartsWith (s pre : String) : Bool :=
  pre.data.isPrefixOf s.data

/-- The predicate of `parts.filter((p) => p.inlineData &&
p.inlineData.mimeType.startsWith('audio/pcm'))`: throws when `p` is `null`
or when a truthy `inlineData` has no string `mimeType` to call
`.startsWith` on. -/
def audioPred (p : JVal) : Except RTErr Bool := do
  let il ← propGet p "inlineData"
  match il with
  | none => pure false
  | some ilv =>
    if truthyV ilv then
      match ← propGet ilv "mimeType" with
      | some (.str s) => pure (jsStartsWith s "audio/pcm")
      | _ => .error .typeError
    else
      pure false

/-- `p.inlineData?.data` with optional chaining. -/
def inlineDataData (p : JVal) : Except RTErr (Option JVal) := do
  let il ← propGet p "inlineData"
  match il with
  | none => pure none
  | some .null => pure none
  | some ilv => propGet ilv "data"

/-- `Array.prototype.filter` with a throwing predicate. -/
def filterE (f : JVal → Except RTErr Bool) : List JVal → Except RTErr (List JVal)
  | [] => .ok []
  | x :: xs => do
    let b ← f x
    let ys ← filterE f xs
    pure (if b then x :: ys else ys)

/-- `Array.prototype.map` with a throwing function. -/
def mapE (f : JVal → Except RTErr (Option JVal)) :
    List JVal → Except RTErr (List (Option JVal))
  | [] => .ok []
  | x :: xs => do
    let y ← f x
    let ys ← mapE f xs
    pure (y :: ys)

/-- Calling `.filter` on a value: only arrays have it; `undefined.filter`,
and `.filter` of any non-array, throw `TypeError`. -/
def asArr : Option JVal → Except RTErr (List JVal)
  | some (.arr xs) => .ok xs
  | _ => .error .typeError

/-- The `serverContent.modelTurn` branch of `receive` (source lines
189–216): split `parts` into audio and non-audio parts, emit one `audio`
event per truthy base64 payload, then one `content` event when non-audio
parts remain. -/
def modelTurnEvents (mtv : JVal) : Except RTErr (List Event) := do
  let parts ← asArr (← propGet mtv "parts")
  let audioParts ← filterE audioPred parts
  let base64s ← mapE inlineDataData audioParts
  let otherParts := parts.filter (fun p => !(audioParts.contains p))
  let audioEvents := base64s.filterMap (fun b =>
    match b with
    | some v => if truthyV v then some (Event.audio (base64ToArrayBuffer v)) else none
    | none => none)
  let contentEvents :=
    if otherParts.length != 0 then
      [Event.content (.obj [("modelTurn", .obj [("parts", .arr otherParts)])])]
    else []
  pure (audioEvents ++ contentEvents)

/-- The inbound dispatcher `receive` (source lines 160–220), applied to the
already-parsed JSON of the binary frame.  Returns the ordered list of
emitted events and the unmatched-log flag, or the `TypeError` the JS code
would raise. -/
def receive (response : JVal) : Except RTErr ReceiveOut := do
  let tc ← propGet response "toolCall"
  if truthyO tc then
    pure ⟨[Event.toolCall (tc.getD .null)], false⟩
  else
    let tcc ← propGet response "toolCallCancellation"
    if truthyO tcc then
      pure ⟨[Event.toolCallCancellation (tcc.getD .null)], false⟩
    else
      let sc ← propGet response "serverContent"
      if truthyO sc then
        let scv := sc.getD .null
        let intr ← propGet scv "interrupted"
        if truthyO intr then
          pure ⟨[Event.interrupted], false⟩
        else
          let tcm ← propGet scv "turnComplete"
          let turnEvents := if truthyO tcm then [Event.turnComplete] else []
          let mt ← propGet scv "modelTurn"
          if truthyO mt then
            let mtEvents ← modelTurnEvents (mt.getD .null)
            pure ⟨turnEvents ++ mtEvents, false⟩
          else
            pure ⟨turnEvents, false⟩
      else
        pure ⟨[], true⟩

/-! ## Client state and lifecycle -/

/-- The underlying WebSocket channel object: its ready state
(`WebSocket.OPEN = 1`) and an oracle saying whether `ws.send` throws. -/
structure Ws where
  readyState : Nat
  sendFails : Bool
deriving Repr, DecidableEq

/-- The mutable fields of `GeminiWebsocketClient` (constructor, source
lines 14–25).  Promises are modelled by identifiers. -/
structure ClientState where
  name : String
  url : String
  ws : Option Ws
  config : JVal
  isConnecting : Bool
  connectionPromise : Option Nat
  reconnectAttempts : Nat
  maxReconnectAttempts : Nat
  reconnectDelay : Nat
deriving Repr, DecidableEq

/-- The constructor: `maxReconnectAttempts = 3`, `reconnectDelay = 2000`
(milliseconds), no channel, not connecting. -/
def mkClient (name url : String) (config : JVal) : ClientState :=
  { name := if name = "" then "WebSocketClient" else name
    url := url
    ws := none
    config := config
    isConnecting := false
    connectionPromise := none
    reconnectAttempts := 0
    maxReconnectAttempts := 3
    reconnectDelay := 2000 }

/-- `isConnected()`: the channel exists and its ready state is open. -/
def isConnected (s : ClientState) : Bool :=
  match s.ws with
  | some w => w.readyState == 1
  | none => false

/-- Observable side effects of the client, in program order. -/
inductive Action where
  | emit : Event → Action
  | wsSend : JVal → Action
  | openChannel : Action
  | closeChannel : (code : Nat) → (reason : String) → Action
  | scheduleReconnect : (delayMs : Nat) → Action
  | resolvePromise : Nat → Action
  | rejectPromise : Nat → Action
deriving Repr, DecidableEq

/-- What a `connect()` call hands back to its caller. -/
inductive ConnectResult where
  | reused : Option Nat → ConnectResult
  | started : Nat → ConnectResult
deriving Repr, DecidableEq

/-- `connect()` (source lines 65–136) up to its first suspension point:
if already connected, or already connecting, return the existing
`connectionPromise`; otherwise mark connecting, install a fresh promise
`newPid` and open one channel. -/
def connect (s : ClientState) (newPid : Nat) :
    ClientState × List Action × ConnectResult :=
  if isConnected s then
    (s, [], .reused s.connectionPromise)
  else if s.isConnecting then
    (s, [], .reused s.connectionPromise)
  else
    ({ s with isConnecting := true, connectionPromise := some newPid },
     [.openChannel], .started newPid)

/-- A sequence of `connect()` calls with no intervening channel event. -/
def connectMany (s : ClientState) : List Nat → ClientState × List Action × List ConnectResult
  | [] => (s, [], [])
  | pid :: rest =>
    let (s1, a1, r1) := connect s pid
    let (s2, a2, rs) := connectMany s1 rest
    (s2, a1 ++ a2, r1 :: rs)

/-- Errors raised by the outbound methods:
`invalidArgument` for `sendToolResponse`'s synchronous argument checks,
`connectionError` for the deprecated `sendJSON`'s throw-on-closed path. -/
inductive ClientError where
  | invalidArgument : String → ClientError
  | connectionError : String → ClientError
deriving Repr, DecidableEq

/-- The deprecated `sendJSON` (source lines 335–344): throws when not
connected or when the channel write fails. -/
def sendJSON (s : ClientState) (json : JVal) : Except ClientError (List Action) :=
  match s.ws with
  | some w =>
    if w.readyState == 1 then
      if w.sendFails then .error (.connectionError "send failed")
      else .ok [.wsSend json]
    else .error (.connectionError "WebSocket is not connected")
  | none => .error (.connectionError "WebSocket is not connected")

/-- The `open` listener (source lines 80–93): store the channel, clear
`isConnecting`, zero the reconnect counter, send `{ setup: config }`
through `sendJSON`, emit `connected`, resolve the connect promise. -/
def handleOpen (s : ClientState) (w : Ws) (pid : Nat) :
    ClientState × Except ClientError (List Action) :=
  let s1 := { s with ws := some w, isConnecting := false, reconnectAttempts := 0 }
  match sendJSON s1 (.obj [("setup", s.config)]) with
  | .ok sendActs =>
    (s1, .ok (sendActs ++ [.emit .connected, .resolvePromise pid]))
  | .error e => (s1, .error e)

/-- The `error` listener (source lines 96–103): clear `isConnecting`,
emit `connection_error` with the underlying error, reject the promise. -/
def handleError (s : ClientState) (err : JVal) (pid : Nat) :
    ClientState × List Action :=
  ({ s with isConnecting := false },
   [.emit (.connectionError (.obj [("error", err)])), .rejectPromise pid])

/-- The `close` listener (source lines 106–123): clear `isConnecting`,
emit `disconnected` with code and reason, then — when the code is not the
normal closure 1000 and the attempt counter is below the maximum —
increment the counter and schedule a reconnect after
`reconnectDelay * 2 ^ (reconnectAttempts - 1)` ms. -/
def handleClose (s : ClientState) (code : Nat) (reason : String) :
    ClientState × List Action :=
  let s1 := { s with isConnecting := false }
  let acts := [Action.emit (.disconnected code reason)]
  if code ≠ 1000 ∧ s1.reconnectAttempts < s1.maxReconnectAttempts then
    let s2 := { s1 with reconnectAttempts := s1.reconnectAttempts + 1 }
    let delay := s2.reconnectDelay * 2 ^ (s2.reconnectAttempts - 1)
    (s2, acts ++ [.scheduleReconnect delay])
  else
    (s1, acts)

/-- `disconnect()` (source lines 141–153): when a channel object exists,
raise the attempt counter to the maximum, close with code 1000, and null
out the local connection state; otherwise do nothing at all. -/
def disconnect (s : ClientState) : ClientState × List Action :=
  match s.ws with
  | some _ =>
    ({ s with reconnectAttempts := s.maxReconnectAttempts
              ws := none
              isConnecting := false
              connectionPromise := none },
     [.closeChannel 1000 "User initiated disconnect"])
  | none => (s, [])

/-- The reconnect timer callback (source lines 117–121): it simply calls
`this.connect()` (rejections are only logged). -/
def reconnectTimerFire (s : ClientState) (newPid : Nat) :
    ClientState × List Action × ConnectResult :=
  connect s newPid

/-! ## Outbound encoder -/

/-- `safelySendJSON` (source lines 227–240): write only when connected,
catch write failures; returns the success flag and the writes performed. -/
def safelySendJSON (s : ClientState) (data : JVal) : Bool × List Action :=
  if isConnected s then
    match s.ws with
    | some w => if w.sendFails then (false, []) else (true, [.wsSend data])
    | none => (false, [])
  else
    (false, [])

/-- The realtime-input media-chunk envelope. -/
def mediaChunkEnvelope (mimeType : String) (data : JVal) : JVal :=
  .obj [("realtimeInput", .obj [("mediaChunks",
    .arr [.obj [("mimeType", .str mimeType), ("data", data)]])])]

/-- `sendAudio` (source lines 247–255): silent no-op on falsy input, else
one guarded send of the `audio/pcm` media-chunk envelope. -/
def sendAudio (s : ClientState) (base64audio : JVal) : List Action :=
  if !truthyV base64audio then []
  else (safelySendJSON s (mediaChunkEnvelope "audio/pcm" base64audio)).2

/-- `sendImage` (source lines 262–270): silent no-op on falsy input, else
one guarded send of the `image/jpeg` media-chunk envelope. -/
def sendImage (s : ClientState) (base64image : JVal) : List Action :=
  if !truthyV base64image then []
  else (safelySendJSON s (mediaChunkEnvelope "image/jpeg" base64image)).2

/-- `sendText` (source lines 278–292): one guarded send of the
client-content envelope with role `user` and the end-of-turn flag. -/
def sendText (s : ClientState) (text : String) (endOfTurn : Bool) : List Action :=
  let formattedText : JVal :=
    .obj [("clientContent", .obj [
      ("turns", .arr [.obj [("role", .str "user"),
                            ("parts", .obj [("text", .str text)])]]),
      ("turnComplete", .bool endOfTurn)])]
  (safelySendJSON s formattedText).2

/-- The argument record of `sendToolResponse`; `none` = the field is
absent (`undefined`). -/
structure ToolResponseArg where
  id : Option JVal
  output : Option JVal
  error : Option JVal
deriving Repr, DecidableEq

/-- `sendToolResponse` (source lines 301–327): throws `InvalidArgument`
when the argument or its id is falsy, or when the error is falsy and
`output === undefined`; otherwise one guarded send of the tool-response
envelope, whose single entry carries `response: { error }` when the error
is truthy and `response: { output }` otherwise. -/
def sendToolResponse (s : ClientState) (toolResponse : Option ToolResponseArg) :
    Except ClientError (Bool × List Action) := do
  match toolResponse with
  | none => .error (.invalidArgument "Tool response must include an id")
  | some t =>
    if !truthyO t.id then
      .error (.invalidArgument "Tool response must include an id")
    else
      let idv := t.id.getD .null
      let result ←
        if truthyO t.error then
          pure [JVal.obj [("response", .obj [("error", t.error.getD .null)]), ("id", idv)]]
        else if t.output = none then
          .error (.invalidArgument "Tool response must include an output when no error is provided")
        else
          pure [JVal.obj [("response", .obj [("output", t.output.getD .null)]), ("id", idv)]]
      pure (safelySendJSON s (.obj [("toolResponse",
        .obj [("functionResponses", .arr result)])]))

/-! ## Derived shapes used in theorem statements -/

/-- Whether the audio-part predicate accepts `p` (only meaningful when it
does not throw). -/
def isAudioPart (p : JVal) : Bool :=
  match audioPred p with
  | .ok b => b
  | .error _ => false

/-- The base64 payload `p.inlineData?.data` when it is defined. -/
def dataOf (p : JVal) : Option JVal :=
  match inlineDataData p with
  | .ok v => v
  | .error _ => none

/-- All parts survive the audio-filter predicate without a `TypeError`. -/
def partsSafe (ps : List JVal) : Bool :=
  ps.all (fun p => (audioPred p).isOk)

/-- The frames on which `receive` provably does not throw: the frame is
not JSON `null`, and whenever dispatch reaches a truthy
`serverContent.modelTurn` (no interruption short-circuit first),
`modelTurn.parts` is an array whose elements the audio-part predicate
can examine without a `TypeError`. -/
def safeFrame (r : JVal) : Bool :=
  if r = .null then false
  else if truthyO (jget r "toolCall") then true
    else if truthyO (jget r "toolCallCancellation") then true
    else
      match jget r "serverContent" with
      | none => true
      | some scv =>
        if !truthyV scv then true
        else if truthyO (jget scv "interrupted") then true
        else
          match jget scv "modelTurn" with
          | none => true
          | some mtv =>
            if !truthyV mtv then true
            else
              match jget mtv "parts" with
              | some (.arr ps) => partsSafe ps
              | _ => false

/-- Monadic bind on a successful `Except` computation. -/
theorem exceptBind_ok {ε α β : Type} (a : α) (f : α → Except ε β) :
    (Except.ok a : Except ε α) >>= f = f a := rfl

/-- Monadic bind on a failed `Except` computation. -/
theorem exceptBind_error {ε α β : Type} (e : ε) (f : α → Except ε β) :
    (Except.error e : Except ε α) >>= f = Except.error e := rfl

/-- `pure` on `Except` is `Except.ok`. -/
theorem exceptPure {ε α : Type} (a : α) :
    (pure a : Except ε α) = Except.ok a := rfl

/-! ## Claim C1: abnormal-closure backoff -/

/-- C1: for every abnormal closure (code ≠ 1000) with the reconnect
counter strictly below the maximum 3, the close handler increments the
counter, publishes `disconnected` with the code and reason first, and then
schedules a deferred reconnect after `2000 * 2 ^ oldCounter` ms
(= 2000 ms × 2^(newCounter − 1); 2000, 4000, 8000 ms for counters 0, 1, 2);
when the counter already equals 3, no reconnect is scheduled. -/
theorem c1_abnormal_close_schedules_backoff (s : ClientState) (code : Nat)
    (reason : String) (hmax : s.maxReconnectAttempts = 3)
    (hdelay : s.reconnectDelay = 2000) (hcode : code ≠ 1000) :
    (s.reconnectAttempts < 3 →
      handleClose s code reason =
        ({ s with isConnecting := false,
                  reconnectAttempts := s.reconnectAttempts + 1 },
         [.emit (.disconnected code reason),
          .scheduleReconnect (2000 * 2 ^ s.reconnectAttempts)])) ∧
    (s.reconnectAttempts = 3 →
      handleClose s code reason =
        ({ s with isConnecting := false },
         [.emit (.disconnected code reason)])) := by
  constructor
  · intro hlt
    simp [handleClose, hcode, hmax, hdelay, hlt]
  · intro heq
    simp [handleClose, hcode, hmax, heq]

/-- Witness for C1 at closure code 1006 and counters 0, 1, 2, 3: delays
2000, 4000, 8000 ms, and no reconnect at the maximum. -/
theorem c1_abnormal_close_schedules_backoff_witness :
    (handleClose { (mkClient "c" "u" (.obj [])) with ws := some ⟨1, false⟩ }
        1006 "net" =
      ({ (mkClient "c" "u" (.obj [])) with
          ws := some ⟨1, false⟩
          isConnecting := false
          reconnectAttempts := 0 + 1 },
       [.emit (.disconnected 1006 "net"), .scheduleReconnect 2000])) ∧
    (handleClose { (mkClient "c" "u" (.obj [])) with reconnectAttempts := 1 }
        1006 "net" =
      ({ (mkClient "c" "u" (.obj [])) with
          reconnectAttempts := 1 + 1
          isConnecting := false },
       [.emit (.disconnected 1006 "net"), .scheduleReconnect 4000])) ∧
    (handleClose { (mkClient "c" "u" (.obj [])) with reconnectAttempts := 2 }
        1006 "net" =
      ({ (mkClient "c" "u" (.obj [])) with
          reconnectAttempts := 2 + 1
          isConnecting := false },
       [.emit (.disconnected 1006 "net"), .scheduleReconnect 8000])) ∧
    (handleClose { (mkClient "c" "u" (.obj [])) with reconnectAttempts := 3 }
        1006 "net" =
      ({ (mkClient "c" "u" (.obj [])) with
          reconnectAttempts := 3
          isConnecting := false },
       [.emit (.disconnected 1006 "net")])) := by
  refine ⟨?_, ?_, ?_, ?_⟩
  · exact (c1_abnormal_close_schedules_backoff _ 1006 "net" rfl rfl (by decide)).1
      (by decide)
  · exact (c1_abnormal_close_schedules_backoff _ 1006 "net" rfl rfl (by decide)).1
      (by decide)
  · exact (c1_abnormal_close_schedules_backoff _ 1006 "net" rfl rfl (by decide)).1
      (by decide)
  · exact (c1_abnormal_close_schedules_backoff _ 1006 "net" rfl rfl (by decide)).2
      (by decide)

/-! ## Claim C2: stale reconnect timer after disconnect -/

/-- C2 (refuting the claim; the code has no guard in the timer callback):
after an abnormal closure schedules a reconnect timer (delay 2000 ms) and
`disconnect()` then runs — raising the counter to the maximum 3 and
nulling the channel — the timer callback still calls `connect()`, which
finds the client neither connected nor connecting and opens a new
channel: the stale callback does re-establish the connection. -/
theorem c2_stale_timer_reopens_after_disconnect :
    let s2 : ClientState :=
      (handleOpen ((connect (mkClient "c" "u" (.obj [])) 1).1) ⟨1, false⟩ 1).1
    let s3 := (handleClose s2 1006 "dropped").1
    let s4 := (disconnect s3).1
    (handleClose s2 1006 "dropped").2 =
      [.emit (.disconnected 1006 "dropped"), .scheduleReconnect 2000] ∧
    s4.reconnectAttempts = 3 ∧ s4.ws = none ∧ s4.isConnecting = false ∧
    reconnectTimerFire s4 2 =
      ({ s4 with isConnecting := true, connectionPromise := some 2 },
       [.openChannel], .started 2) := by
  refine ⟨rfl, rfl, rfl, rfl, rfl⟩

/-! ## Claim C4: open and error handlers of `connect()` -/

/-- C4: a successful channel open stores the channel (making
`isConnected` true), resets the reconnect counter to zero, sends
`{ setup: config }` as the first outbound action — before the `connected`
event — then publishes `connected` and resolves the connect promise; a
failed open publishes `connection_error` carrying the underlying error
and rejects the promise, and its handler neither opens a channel nor
schedules any reconnect. -/
theorem c4_open_success_and_error_paths (s : ClientState) (w : Ws)
    (err : JVal) (pid : Nat) (hrs : w.readyState = 1)
    (hsf : w.sendFails = false) :
    handleOpen s w pid =
      ({ s with ws := some w, isConnecting := false, reconnectAttempts := 0 },
       .ok [.wsSend (.obj [("setup", s.config)]), .emit .connected,
            .resolvePromise pid]) ∧
    isConnected
      { s with ws := some w, isConnecting := false, reconnectAttempts := 0 } =
      true ∧
    handleError s err pid =
      ({ s with isConnecting := false },
       [.emit (.connectionError (.obj [("error", err)])),
        .rejectPromise pid]) ∧
    (∀ a ∈ (handleError s err pid).2,
      a ≠ .openChannel ∧ ∀ d, a ≠ .scheduleReconnect d) := by
  refine ⟨?_, ?_, rfl, ?_⟩
  · simp [handleOpen, sendJSON, hrs, hsf]
  · simp [isConnected, hrs]
  · intro a ha
    simp only [handleError, List.mem_cons, List.not_mem_nil, or_false] at ha
    rcases ha with rfl | rfl
    · exact ⟨by simp, fun d => by simp⟩
    · exact ⟨by simp, fun d => by simp⟩

/-- Witness for C4 on a fresh client and an open, non-failing channel. -/
theorem c4_open_success_and_error_paths_witness :
    handleOpen (mkClient "c" "u" (.str "cfg")) ⟨1, false⟩ 7 =
      ({ (mkClient "c" "u" (.str "cfg")) with
          ws := some ⟨1, false⟩
          isConnecting := false
          reconnectAttempts := 0 },
       .ok [.wsSend (.obj [("setup", .str "cfg")]), .emit .connected,
            .resolvePromise 7]) ∧
    handleError (mkClient "c" "u" (.str "cfg")) (.str "refused") 7 =
      ({ (mkClient "c" "u" (.str "cfg")) with isConnecting := false },
       [.emit (.connectionError (.obj [("error", .str "refused")])),
        .rejectPromise 7]) := by
  have h := c4_open_success_and_error_paths (mkClient "c" "u" (.str "cfg"))
    ⟨1, false⟩ (.str "refused") 7 rfl rfl
  exact ⟨h.1, h.2.2.1⟩

/-! ## Claim C5: interruption short-circuits the frame -/

/-- C5: whenever dispatch reaches a truthy `serverContent` whose
`interrupted` field is truthy, `receive` publishes exactly the
`interrupted` event (no payload) and nothing else — in particular no
`turn_complete`, `content` or `audio` events — whatever else the frame
carries. -/
theorem c5_interrupted_short_circuits (r : JVal) (tc tcc sc intr : Option JVal)
    (htc : propGet r "toolCall" = .ok tc) (htcf : truthyO tc = false)
    (htcc : propGet r "toolCallCancellation" = .ok tcc)
    (htccf : truthyO tcc = false)
    (hsc : propGet r "serverContent" = .ok sc) (hsct : truthyO sc = true)
    (hintr : propGet (sc.getD .null) "interrupted" = .ok intr)
    (hintrt : truthyO intr = true) :
    receive r = .ok ⟨[Event.interrupted], false⟩ := by
  simp [receive, htc, htcf, htcc, htccf, hsc, hsct, hintr, hintrt,
    exceptBind_ok, exceptPure]

/-- Witness for C5 on the spec's frame carrying `interrupted`,
`turnComplete` and a non-empty `modelTurn.parts` together. -/
theorem c5_interrupted_short_circuits_witness :
    receive (.obj [("serverContent", .obj [
        ("interrupted", .bool true), ("turnComplete", .bool true),
        ("modelTurn", .obj [("parts", .arr [.obj [("text", .str "hi")]])])])]) =
      .ok ⟨[Event.interrupted], false⟩ :=
  c5_interrupted_short_circuits _ none none
    (some (.obj [("interrupted", .bool true), ("turnComplete", .bool true),
      ("modelTurn", .obj [("parts", .arr [.obj [("text", .str "hi")]])])]))
    (some (.bool true)) rfl rfl rfl rfl rfl rfl rfl rfl

/-! ## Claim C10: `disconnect()` with no channel is a no-op -/

/-- C10: when the channel reference is null — as it is while a first
connect attempt is in flight, the channel being stored only in the open
handler — `disconnect()` changes no field of the client state and
performs no action; in particular the reconnect-attempt counter is not
raised to the maximum, so the in-flight attempt and future automatic
reconnects are unaffected. -/
theorem c10_disconnect_no_channel_noop (s : ClientState) (h : s.ws = none) :
    disconnect s = (s, []) ∧
    (disconnect s).1.reconnectAttempts = s.reconnectAttempts ∧
    (disconnect s).1.isConnecting = s.isConnecting ∧
    (disconnect s).1.connectionPromise = s.connectionPromise := by
  have hd : disconnect s = (s, []) := by simp [disconnect, h]
  exact ⟨hd, by rw [hd], by rw [hd], by rw [hd]⟩

/-- Witness for C10 on a client whose connect attempt is still in flight
(`isConnecting`, no channel yet). -/
theorem c10_disconnect_no_channel_noop_witness :
    disconnect ((connect (mkClient "c" "u" (.obj [])) 1).1) =
      (((connect (mkClient "c" "u" (.obj [])) 1).1), []) :=
  (c10_disconnect_no_channel_noop _ rfl).1


/-! ## Claim C8: single in-flight connect attempt -/

/-- While the channel is open or a connect attempt is in flight, any
sequence of `connect()` calls leaves the state unchanged, performs no
action, and hands every caller the existing `connectionPromise`. -/
theorem connectMany_absorbed (s : ClientState) (pids : List Nat)
    (h : isConnected s = true ∨ s.isConnecting = true) :
    connectMany s pids =
      (s, [], pids.map fun _ => .reused s.connectionPromise) := by
  induction pids with
  | nil => rfl
  | cons p ps ih =>
    have hc : connect s p = (s, [], .reused s.connectionPromise) := by
      unfold connect
      by_cases hco : isConnected s = true
      · simp [hco]
      · rcases h with h | h
        · exact absurd h hco
        · simp [hco, h]
    simp [connectMany, hc, ih]

/-- C8: from an idle client, a burst of `connect()` calls overlapping the
first, still-in-flight attempt makes exactly one channel-open attempt
(`[.openChannel]`), the first caller starts promise `p`, and every later
caller is handed that same promise, so all of them resolve or reject
together; moreover a `connect()` on an already-open channel returns the
existing promise without touching anything. -/
theorem c8_single_open_attempt (s : ClientState) (p : Nat) (ps : List Nat)
    (hnc : isConnected s = false) (hni : s.isConnecting = false) :
    connectMany s (p :: ps) =
      ({ s with isConnecting := true, connectionPromise := some p },
       [.openChannel],
       .started p :: ps.map fun _ => .reused (some p)) ∧
    (∀ s2 : ClientState, isConnected s2 = true → ∀ q,
      connect s2 q = (s2, [], .reused s2.connectionPromise)) := by
  constructor
  · have h1 : connect s p =
        ({ s with isConnecting := true, connectionPromise := some p },
         [.openChannel], .started p) := by
      simp [connect, hnc, hni]
    have h2 := connectMany_absorbed
      { s with isConnecting := true, connectionPromise := some p } ps
      (Or.inr rfl)
    simp [connectMany, h1, h2]
  · intro s2 h2 q
    simp [connect, h2]

/-- Witness for C8: three overlapping `connect()` calls on a fresh client
make one open attempt and share promise 1. -/
theorem c8_single_open_attempt_witness :
    connectMany (mkClient "c" "u" (.obj [])) [1, 2, 3] =
      ({ (mkClient "c" "u" (.obj [])) with
          isConnecting := true
          connectionPromise := some 1 },
       [.openChannel],
       [.started 1, .reused (some 1), .reused (some 1)]) :=
  (c8_single_open_attempt (mkClient "c" "u" (.obj [])) 1 [2, 3] rfl rfl).1

/-! ## Claim C7: `sendToolResponse` argument contract -/

/-- C7: `sendToolResponse` fails exactly when the call id is falsy (or
the whole argument is absent) or when the error is falsy and no output is
supplied; every failure is an `invalidArgument`; a truthy error yields
the envelope `toolResponse.functionResponses = [{ response: { error },
id }]`, whose response object carries no `output` key; otherwise the
single entry carries `response: { output }` with the call id. -/
theorem c7_sendToolResponse_contract (s : ClientState) (t : ToolResponseArg) :
    ((sendToolResponse s (some t)).isOk = true ↔
      (truthyO t.id = true ∧ (truthyO t.error = true ∨ t.output ≠ none))) ∧
    (∀ e, sendToolResponse s (some t) = .error e →
      ∃ m, e = .invalidArgument m) ∧
    sendToolResponse s none =
      .error (.invalidArgument "Tool response must include an id") ∧
    (truthyO t.id = true → truthyO t.error = true →
      sendToolResponse s (some t) =
        .ok (safelySendJSON s (.obj [("toolResponse", .obj [("functionResponses",
          .arr [.obj [("response", .obj [("error", t.error.getD .null)]),
                      ("id", t.id.getD .null)]])])]))) ∧
    jget (.obj [("error", t.error.getD .null)]) "output" = none ∧
    (truthyO t.id = true → truthyO t.error = false → ∀ o, t.output = some o →
      sendToolResponse s (some t) =
        .ok (safelySendJSON s (.obj [("toolResponse", .obj [("functionResponses",
          .arr [.obj [("response", .obj [("output", o)]),
                      ("id", t.id.getD .null)]])])]))) := by
  refine ⟨?_, ?_, rfl, ?_, by simp [jget], ?_⟩
  · by_cases hid : truthyO t.id = true
    · by_cases herr : truthyO t.error = true
      · simp [sendToolResponse, hid, herr, exceptBind_ok, exceptPure,
          Except.isOk, Except.toBool]
      · by_cases hout : t.output = none
        · simp [sendToolResponse, hid, herr, hout, exceptBind_error,
            exceptPure, Except.isOk, Except.toBool]
        · rcases Option.ne_none_iff_exists'.mp hout with ⟨o, ho⟩
          simp [sendToolResponse, hid, herr, ho, exceptBind_ok, exceptPure,
            Except.isOk, Except.toBool]
    · simp [sendToolResponse, hid, Except.isOk, Except.toBool,
        Bool.not_eq_true _ ▸ hid]
  · intro e he
    by_cases hid : truthyO t.id = true
    · by_cases herr : truthyO t.error = true
      · simp [sendToolResponse, hid, herr, exceptBind_ok, exceptPure] at he
      · by_cases hout : t.output = none
        · simp [sendToolResponse, hid, herr, hout, exceptBind_error,
            exceptPure] at he
          exact ⟨_, he.symm⟩
        · rcases Option.ne_none_iff_exists'.mp hout with ⟨o, ho⟩
          simp [sendToolResponse, hid, herr, ho, exceptBind_ok,
            exceptPure] at he
    · simp [sendToolResponse, hid] at he
      exact ⟨_, he.symm⟩
  · intro hid herr
    simp [sendToolResponse, hid, herr, exceptBind_ok, exceptPure]
  · intro hid herr o ho
    simp [sendToolResponse, hid, herr, ho, exceptBind_ok, exceptPure]

/-- Witness for C7: the spec's two probes — `{id: "x"}` with neither
output nor error fails with `InvalidArgument`; `{id: "x", error: "e"}`
produces the error-keyed envelope. -/
theorem c7_sendToolResponse_contract_witness :
    (sendToolResponse (mkClient "c" "u" (.obj []))
        (some ⟨some (.str "x"), none, none⟩)).isOk = false ∧
    sendToolResponse (mkClient "c" "u" (.obj []))
        (some ⟨some (.str "x"), none, some (.str "e")⟩) =
      .ok (safelySendJSON (mkClient "c" "u" (.obj []))
        (.obj [("toolResponse", .obj [("functionResponses",
          .arr [.obj [("response", .obj [("error", .str "e")]),
                      ("id", .str "x")]])])])) := by
  constructor
  · have h := (c7_sendToolResponse_contract (mkClient "c" "u" (.obj []))
      ⟨some (.str "x"), none, none⟩).1
    simp only [truthyO, truthyV] at h
    simp [Bool.eq_false_iff, h]
  · exact (c7_sendToolResponse_contract (mkClient "c" "u" (.obj []))
      ⟨some (.str "x"), none, some (.str "e")⟩).2.2.2.1 rfl rfl

/-! ## Claim C9: guarded sends never raise connection errors -/

/-- C9: while connected with a working channel, a truthy audio payload is
written as exactly one realtime-input media-chunk envelope with MIME
`audio/pcm`; a failing write is swallowed into a `false` result with
nothing written; while disconnected, the guarded primitive writes nothing
and returns the failed-send flag for audio, image and text alike; falsy
audio input is a silent no-op; and `sendToolResponse` — the fourth
guarded sender — can only raise `invalidArgument`, never a connection
error. -/
theorem c9_guarded_send_primitive (s : ClientState) (b64 data : JVal)
    (t : Option ToolResponseArg) (w : Ws) :
    (s.ws = some w → w.readyState = 1 → w.sendFails = false →
      truthyV b64 = true →
      sendAudio s b64 = [.wsSend (mediaChunkEnvelope "audio/pcm" b64)]) ∧
    (s.ws = some w → w.readyState = 1 → w.sendFails = true →
      safelySendJSON s data = (false, [])) ∧
    (isConnected s = false →
      safelySendJSON s data = (false, []) ∧ sendAudio s b64 = [] ∧
      sendImage s b64 = [] ∧ ∀ txt eot, sendText s txt eot = []) ∧
    (truthyV b64 = false → sendAudio s b64 = []) ∧
    (∀ e, sendToolResponse s t = .error e → ∃ m, e = .invalidArgument m) := by
  refine ⟨?_, ?_, ?_, ?_, ?_⟩
  · intro hws hrs hsf htr
    simp [sendAudio, htr, safelySendJSON, isConnected, hws, hrs, hsf]
  · intro hws hrs hsf
    simp [safelySendJSON, isConnected, hws, hrs, hsf]
  · intro hni
    refine ⟨by simp [safelySendJSON, hni], ?_, ?_, ?_⟩
    · by_cases htr : truthyV b64 = true
      · simp [sendAudio, htr, safelySendJSON, hni]
      · simp [sendAudio, Bool.not_eq_true _ ▸ htr]
    · by_cases htr : truthyV b64 = true
      · simp [sendImage, htr, safelySendJSON, hni]
      · simp [sendImage, Bool.not_eq_true _ ▸ htr]
    · intro txt eot
      simp [sendText, safelySendJSON, hni]
  · intro htr
    simp [sendAudio, htr]
  · intro e he
    match t with
    | none =>
      simp [sendToolResponse] at he
      exact ⟨_, he.symm⟩
    | some ta =>
      by_cases hid : truthyO ta.id = true
      · by_cases herr : truthyO ta.error = true
        · simp [sendToolResponse, hid, herr, exceptBind_ok, exceptPure] at he
        · by_cases hout : ta.output = none
          · simp [sendToolResponse, hid, herr, hout, exceptBind_error,
              exceptPure] at he
            exact ⟨_, he.symm⟩
          · rcases Option.ne_none_iff_exists'.mp hout with ⟨o, ho⟩
            simp [sendToolResponse, hid, herr, ho, exceptBind_ok,
              exceptPure] at he
      · simp [sendToolResponse, hid] at he
        exact ⟨_, he.symm⟩

/-- Witness for C9: a connected client writes one `audio/pcm` envelope
for payload `"QUJD"`; a disconnected client writes nothing and reports
failure. -/
theorem c9_guarded_send_primitive_witness :
    sendAudio { (mkClient "c" "u" (.obj [])) with ws := some ⟨1, false⟩ }
        (.str "QUJD") =
      [.wsSend (mediaChunkEnvelope "audio/pcm" (.str "QUJD"))] ∧
    safelySendJSON (mkClient "c" "u" (.obj [])) (.str "x") = (false, []) := by
  constructor
  · exact (c9_guarded_send_primitive
      { (mkClient "c" "u" (.obj [])) with ws := some ⟨1, false⟩ }
      (.str "QUJD") (.str "x") none ⟨1, false⟩).1 rfl rfl rfl rfl
  · exact ((c9_guarded_send_primitive (mkClient "c" "u" (.obj []))
      (.str "QUJD") (.str "x") none ⟨1, false⟩).2.2.1 rfl).1


/-! ## Shared lemmas about the dispatcher's throwing primitives -/

/-- Property access on any non-null value succeeds. -/
theorem propGet_of_ne_null (v : JVal) (k : String) (h : v ≠ .null) :
    propGet v k = .ok (jget v k) := by
  cases v <;> simp_all [propGet]

/-- A truthy value is not `null`. -/
theorem ne_null_of_truthy (v : JVal) (h : truthyV v = true) : v ≠ .null := by
  intro he; subst he; simp [truthyV] at h

/-- On a non-throwing part, the audio predicate computes `isAudioPart`. -/
theorem audioPred_eq_isAudioPart (p : JVal) (h : (audioPred p).isOk = true) :
    audioPred p = .ok (isAudioPart p) := by
  cases hap : audioPred p with
  | ok b => simp [isAudioPart, hap]
  | error e => rw [hap] at h; simp [Except.isOk, Except.toBool] at h

/-- Structure forced on a part the audio predicate accepts: the part is
not null and carries a truthy (hence non-null) `inlineData`. -/
theorem audio_part_shape (p : JVal) (h : isAudioPart p = true) :
    p ≠ .null ∧ ∃ ilv, jget p "inlineData" = some ilv ∧ truthyV ilv = true ∧
      ilv ≠ .null := by
  by_cases hp : p = .null
  · subst hp
    simp [isAudioPart, audioPred, propGet, exceptBind_error] at h
  · refine ⟨hp, ?_⟩
    unfold isAudioPart audioPred at h
    rw [propGet_of_ne_null p _ hp, exceptBind_ok] at h
    cases hil : jget p "inlineData" with
    | none => rw [hil] at h; simp [exceptPure] at h
    | some ilv =>
      rw [hil] at h
      by_cases hti : truthyV ilv = true
      · exact ⟨ilv, rfl, hti, ne_null_of_truthy ilv hti⟩
      · simp [hti, exceptPure] at h

/-- On an accepted audio part, `p.inlineData?.data` evaluates without a
throw, to `dataOf p`. -/
theorem inlineDataData_eq_of_audio (p : JVal) (h : isAudioPart p = true) :
    inlineDataData p = .ok (dataOf p) := by
  obtain ⟨hp, ilv, hil, hti, hnn⟩ := audio_part_shape p h
  have hstep : inlineDataData p = propGet ilv "data" := by
    unfold inlineDataData
    rw [propGet_of_ne_null p _ hp, exceptBind_ok, hil]
    cases ilv with
    | null => exact absurd rfl hnn
    | bool b => rfl
    | num n => rfl
    | str s => rfl
    | arr xs => rfl
    | obj fs => rfl
  rw [hstep, propGet_of_ne_null ilv _ hnn]
  unfold dataOf
  rw [hstep, propGet_of_ne_null ilv _ hnn]

/-- When the audio predicate throws on no part, the effectful filter
computes the pure filter by `isAudioPart`. -/
theorem filterE_audio_eq (l : List JVal)
    (h : ∀ p ∈ l, (audioPred p).isOk = true) :
    filterE audioPred l = .ok (l.filter isAudioPart) := by
  induction l with
  | nil => rfl
  | cons x xs ih =>
    have hax := audioPred_eq_isAudioPart x (h x (List.mem_cons_self x xs))
    have hxs := ih (fun p hp => h p (List.mem_cons_of_mem x hp))
    simp only [filterE, hax, exceptBind_ok, hxs, exceptPure]
    by_cases hb : isAudioPart x = true
    · rw [if_pos hb, List.filter_cons_of_pos hb]
    · rw [if_neg hb, List.filter_cons_of_neg hb]

/-- Mapping `p.inlineData?.data` over accepted audio parts never throws
and computes `dataOf` pointwise. -/
theorem mapE_data_eq (l : List JVal) (h : ∀ p ∈ l, isAudioPart p = true) :
    mapE inlineDataData l = .ok (l.map dataOf) := by
  induction l with
  | nil => rfl
  | cons x xs ih =>
    have hx := inlineDataData_eq_of_audio x (h x (List.mem_cons_self x xs))
    have hxs := ih (fun p hp => h p (List.mem_cons_of_mem x hp))
    simp [mapE, hx, exceptBind_ok, hxs, exceptPure]

/-- `parts.filter((p) => !audioParts.includes(p))` is the complement
partition: membership in the filtered audio list is decided by
`isAudioPart` alone (the `BEq` on `JVal` is lawful). -/
theorem otherParts_eq (l : List JVal) :
    l.filter (fun p => !((l.filter isAudioPart).contains p)) =
      l.filter (fun p => !isAudioPart p) := by
  apply List.filter_congr
  intro p hp
  have hc : (l.filter isAudioPart).contains p =
      decide (p ∈ l.filter isAudioPart) := List.elem_eq_mem p _
  rw [hc]
  by_cases hb : isAudioPart p = true
  · simp [List.mem_filter, hp, hb]
  · simp [List.mem_filter, hb]

/-- A `filterMap` in which the function is defined everywhere on the list
is a `map`. -/
theorem filterMap_all_some {α β : Type} (f : α → Option β) (g : α → β)
    (l : List α) (h : ∀ a ∈ l, f a = some (g a)) :
    l.filterMap f = l.map g := by
  induction l with
  | nil => rfl
  | cons x xs ih =>
    rw [List.filterMap_cons, h x (List.mem_cons_self x xs), List.map_cons,
      ih (fun a ha => h a (List.mem_cons_of_mem x ha))]

/-- The `modelTurn` branch on any well-shaped model turn: one audio
event per audio part with a truthy payload (a `filterMap` — audio parts
without a truthy payload are skipped), in partition order, then one
`content` event exactly when non-audio parts remain. -/
theorem modelTurnEvents_eq (mtv : JVal) (parts : List JVal)
    (hmt : mtv ≠ .null) (hparts : jget mtv "parts" = some (.arr parts))
    (hok : ∀ p ∈ parts, (audioPred p).isOk = true) :
    modelTurnEvents mtv = .ok
      (((parts.filter isAudioPart).filterMap fun p =>
          match dataOf p with
          | some v =>
            if truthyV v then some (Event.audio (base64ToArrayBuffer v))
            else none
          | none => none) ++
        (if (parts.filter fun p => !isAudioPart p).length != 0 then
          [Event.content (.obj [("modelTurn",
            .obj [("parts", .arr (parts.filter fun p => !isAudioPart p))])])]
         else [])) := by
  unfold modelTurnEvents
  rw [propGet_of_ne_null mtv _ hmt, exceptBind_ok,
    show asArr (jget mtv "parts") = .ok parts by rw [hparts]; rfl, exceptBind_ok,
    filterE_audio_eq parts hok, exceptBind_ok,
    mapE_data_eq _ (fun p hp => (List.mem_filter.mp hp).2), exceptBind_ok,
    otherParts_eq parts, exceptPure]
  congr 1
  rw [List.filterMap_map]
  rfl


/-- The `modelTurn` branch does not throw on a well-shaped model turn,
whatever the audio payloads are. -/
theorem modelTurnEvents_isOk (mtv : JVal) (parts : List JVal)
    (hmt : mtv ≠ .null) (hparts : jget mtv "parts" = some (.arr parts))
    (hok : ∀ p ∈ parts, (audioPred p).isOk = true) :
    (modelTurnEvents mtv).isOk = true := by
  unfold modelTurnEvents
  rw [propGet_of_ne_null mtv _ hmt, exceptBind_ok,
    show asArr (jget mtv "parts") = .ok parts by rw [hparts]; rfl, exceptBind_ok,
    filterE_audio_eq parts hok, exceptBind_ok,
    mapE_data_eq _ (fun p hp => (List.mem_filter.mp hp).2), exceptBind_ok]
  simp [exceptPure, Except.isOk, Except.toBool]

/-! ## Claim C3: throw behaviour of the dispatcher -/

/-- C3 counterexample (to the claim that `receive` never throws on
malformed-but-parseable frames): the claim's own examples throw — a
`serverContent.modelTurn` without a `parts` array raises a `TypeError`
(`undefined.filter`), as does a part whose truthy `inlineData` lacks a
`mimeType` (`undefined.startsWith`). -/
theorem c3_counterexample_malformed_model_turn :
    receive (.obj [("serverContent", .obj [("modelTurn", .obj [])])]) =
      .error .typeError ∧
    receive (.obj [("serverContent", .obj [("modelTurn", .obj [("parts",
      .arr [.obj [("inlineData", .obj [("data", .str "QQ=="), ("foo", .bool true)])]])])])]) =
      .error .typeError := ⟨by rfl, by rfl⟩

/-- C3 (amended): `receive` never throws on a frame satisfying
`safeFrame` — any parseable frame other than JSON `null` in which, when
dispatch would actually reach a truthy `serverContent.modelTurn` without
an interruption short-circuit, `modelTurn.parts` is an array whose every
part the audio predicate can examine without a `TypeError`; in
particular every frame matching none of the three variants degrades to
the unmatched-log path without throwing. -/
theorem c3_no_throw_on_safe_frames (r : JVal) (h : safeFrame r = true) :
    (receive r).isOk = true := by
  by_cases hr : r = .null
  · subst hr; simp [safeFrame] at h
  · unfold safeFrame at h
    rw [if_neg hr] at h
    unfold receive
    rw [propGet_of_ne_null r _ hr, exceptBind_ok]
    by_cases h1 : truthyO (jget r "toolCall") = true
    · simp [h1, exceptPure, Except.isOk, Except.toBool]
    · rw [if_neg h1, propGet_of_ne_null r _ hr, exceptBind_ok]
      by_cases h2 : truthyO (jget r "toolCallCancellation") = true
      · simp [h2, exceptPure, Except.isOk, Except.toBool]
      · rw [if_neg h2, propGet_of_ne_null r _ hr, exceptBind_ok]
        rw [if_neg h1, if_neg h2] at h
        cases hsc : jget r "serverContent" with
        | none => simp [hsc, truthyO, exceptPure, Except.isOk, Except.toBool]
        | some scv =>
          rw [hsc] at h
          simp only [Option.getD_some]
          by_cases hst : truthyV scv = true
          · have hsnn : scv ≠ .null := ne_null_of_truthy scv hst
            rw [if_pos (by simp [truthyO, hst]),
              propGet_of_ne_null scv "interrupted" hsnn, exceptBind_ok]
            simp only [hst, Bool.not_true, Bool.false_eq_true, if_false] at h
            by_cases hint : truthyO (jget scv "interrupted") = true
            · simp [hint, exceptPure, Except.isOk, Except.toBool]
            · rw [if_neg hint,
                propGet_of_ne_null scv "turnComplete" hsnn, exceptBind_ok,
                propGet_of_ne_null scv "modelTurn" hsnn, exceptBind_ok]
              rw [if_neg hint] at h
              cases hmt : jget scv "modelTurn" with
              | none => simp [truthyO, exceptPure, Except.isOk, Except.toBool]
              | some mtv =>
                rw [hmt] at h
                simp only [Option.getD_some]
                by_cases hmtt : truthyV mtv = true
                · rw [if_pos (by simp [truthyO, hmtt])]
                  simp only [hmtt, Bool.not_true, Bool.false_eq_true,
                    if_false] at h
                  cases hpt : jget mtv "parts" with
                  | none => rw [hpt] at h; simp at h
                  | some pv =>
                    rw [hpt] at h
                    cases pv with
                    | arr ps =>
                      have hok : ∀ p ∈ ps, (audioPred p).isOk = true := by
                        intro p hp
                        exact List.all_eq_true.mp h p hp
                      have hmo := modelTurnEvents_isOk mtv ps
                        (ne_null_of_truthy mtv hmtt) hpt hok
                      cases hmoe : modelTurnEvents mtv with
                      | error e =>
                        rw [hmoe] at hmo
                        simp [Except.isOk, Except.toBool] at hmo
                      | ok evs =>
                        simp [hmoe, Except.isOk, Except.toBool, Except.map]
                    | null => simp at h
                    | bool b => simp at h
                    | num n => simp at h
                    | str s => simp at h
                    | obj fs => simp at h
                · simp [truthyO, hmtt, exceptPure, Except.isOk, Except.toBool]
          · rw [if_neg (by simp [truthyO, hst])]
            simp [exceptPure, Except.isOk, Except.toBool]

/-- Witness for C3 (amended): an unmatched frame and a frame whose
`modelTurn` is falsy both dispatch without a throw. -/
theorem c3_no_throw_on_safe_frames_witness :
    (receive (.obj [("foo", .num 1)])).isOk = true ∧
    (receive (.obj [("serverContent",
      .obj [("turnComplete", .bool true), ("modelTurn", .bool false)])])).isOk =
      true :=
  ⟨c3_no_throw_on_safe_frames _ (by decide),
   c3_no_throw_on_safe_frames _ (by decide)⟩

/-! ## Claim C6: audio / content partition of a model turn -/

/-- C6 counterexample (to "one `audio` event per audio part"): a part
whose `inlineData` has MIME type `audio/pcm` but no `data` payload is an
audio part, yet its frame produces zero `audio` events (the `if (b64)`
guard skips it) and, the part being excluded from the remaining
partition, no `content` event either. -/
theorem c6_counterexample_dataless_audio_part :
    isAudioPart (.obj [("inlineData", .obj [("mimeType", .str "audio/pcm")])]) =
      true ∧
    receive (.obj [("serverContent", .obj [("modelTurn", .obj [("parts",
      .arr [.obj [("inlineData", .obj [("mimeType", .str "audio/pcm")])]])])])]) =
      .ok ⟨[], false⟩ := ⟨by rfl, by rfl⟩

/-- C6 (amended): on a non-interrupted frame whose
`serverContent.modelTurn.parts` is an array of parts the audio predicate
accepts or rejects without throwing, `receive` publishes — after the
`turn_complete` event when `turnComplete` is truthy — one `audio` event
per audio part whose `inlineData.data` payload is truthy, in original
order, each carrying the base64-decoded payload, while audio parts
without a truthy payload are silently skipped (the `filterMap`); this is
followed by exactly one `content` event holding precisely the non-audio
parts (in original order) when any remain, and no `content` event
otherwise. -/
theorem c6_audio_content_partition (r : JVal) (tc tcc sc intr tcm mt : Option JVal)
    (parts : List JVal)
    (htc : propGet r "toolCall" = .ok tc) (htcf : truthyO tc = false)
    (htcc : propGet r "toolCallCancellation" = .ok tcc)
    (htccf : truthyO tcc = false)
    (hsc : propGet r "serverContent" = .ok sc) (hsct : truthyO sc = true)
    (hintr : propGet (sc.getD .null) "interrupted" = .ok intr)
    (hintrf : truthyO intr = false)
    (htcm : propGet (sc.getD .null) "turnComplete" = .ok tcm)
    (hmt : propGet (sc.getD .null) "modelTurn" = .ok mt)
    (hmtt : truthyO mt = true)
    (hparts : jget (mt.getD .null) "parts" = some (.arr parts))
    (hok : ∀ p ∈ parts, (audioPred p).isOk = true) :
    receive r = .ok
      ⟨(if truthyO tcm = true then [Event.turnComplete] else []) ++
        (((parts.filter isAudioPart).filterMap fun p =>
            match dataOf p with
            | some v =>
              if truthyV v then some (Event.audio (base64ToArrayBuffer v))
              else none
            | none => none) ++
          (if (parts.filter fun p => !isAudioPart p).length != 0 then
            [Event.content (.obj [("modelTurn",
              .obj [("parts", .arr (parts.filter fun p => !isAudioPart p))])])]
           else [])), false⟩ := by
  have hmtnn : mt.getD .null ≠ .null := by
    cases mt with
    | none => simp [truthyO] at hmtt
    | some v =>
      simp only [Option.getD_some]
      exact ne_null_of_truthy v (by simpa [truthyO] using hmtt)
  have hme := modelTurnEvents_eq (mt.getD .null) parts hmtnn hparts hok
  simp [receive, htc, htcf, htcc, htccf, hsc, hsct, hintr, hintrf, htcm,
    hmt, hmtt, hme, exceptBind_ok, exceptPure, Except.map]

/-- Witness for C6 (amended) on a mixed model turn: two audio parts with
payloads around one dataless audio part and one text part yield exactly
two `audio` events in input order (decoded from base64: "QUJD" = bytes
65,66,67 and "ZGVm" = bytes 100,101,102) — the dataless audio part is
skipped — and exactly one `content` event carrying only the text part. -/
theorem c6_audio_content_partition_witness :
    receive (.obj [("serverContent", .obj [("modelTurn", .obj [("parts",
      .arr [.obj [("inlineData", .obj [("mimeType", .str "audio/pcm"),
                                       ("data", .str "QUJD")])],
            .obj [("inlineData", .obj [("mimeType", .str "audio/pcm")])],
            .obj [("text", .str "hi")],
            .obj [("inlineData", .obj [("mimeType", .str "audio/pcm;rate=24000"),
                                       ("data", .str "ZGVm")])]])])])]) =
      .ok ⟨[.audio [65, 66, 67], .audio [100, 101, 102],
            .content (.obj [("modelTurn", .obj [("parts",
              .arr [.obj [("text", .str "hi")]])])])], false⟩ := by
  have h := c6_audio_content_partition
    (.obj [("serverContent", .obj [("modelTurn", .obj [("parts",
      .arr [.obj [("inlineData", .obj [("mimeType", .str "audio/pcm"),
                                       ("data", .str "QUJD")])],
            .obj [("inlineData", .obj [("mimeType", .str "audio/pcm")])],
            .obj [("text", .str "hi")],
            .obj [("inlineData", .obj [("mimeType", .str "audio/pcm;rate=24000"),
                                       ("data", .str "ZGVm")])]])])])])
    none none
    (some (.obj [("modelTurn", .obj [("parts",
      .arr [.obj [("inlineData", .obj [("mimeType", .str "audio/pcm"),
                                       ("data", .str "QUJD")])],
            .obj [("inlineData", .obj [("mimeType", .str "audio/pcm")])],
            .obj [("text", .str "hi")],
            .obj [("inlineData", .obj [("mimeType", .str "audio/pcm;rate=24000"),
                                       ("data", .str "ZGVm")])]])])]))
    none none
    (some (.obj [("parts",
      .arr [.obj [("inlineData", .obj [("mimeType", .str "audio/pcm"),
                                       ("data", .str "QUJD")])],
            .obj [("inlineData", .obj [("mimeType", .str "audio/pcm")])],
            .obj [("text", .str "hi")],
            .obj [("inlineData", .obj [("mimeType", .str "audio/pcm;rate=24000"),
                                       ("data", .str "ZGVm")])]])]))
    [.obj [("inlineData", .obj [("mimeType", .str "audio/pcm"),
                                ("data", .str "QUJD")])],
     .obj [("inlineData", .obj [("mimeType", .str "audio/pcm")])],
     .obj [("text", .str "hi")],
     .obj [("inlineData", .obj [("mimeType", .str "audio/pcm;rate=24000"),
                                ("data", .str "ZGVm")])]]
    rfl rfl rfl rfl rfl rfl rfl rfl rfl rfl rfl rfl
    (by decide)
  rw [h]
  rfl

end GWC
